import Mathlib

/-
  Verification development for the mc-status-bot repository.

  Shallow embedding of the relevant parts of:
    - bot.py      (configuration validation, the centralized command-error handler)
    - run.py      (the supervisor retry loop `main`, `opt_check_disk_space`)
    - cogs/help.py (the customized help renderer `send_bot_help`)

  Python strings are modelled as Lean `String`s, Python ints as `Int`/`Nat`,
  and the float `retry_after` as a rational number `ℚ` (only its truncation
  to an integer is observable in the code under study).  Side effects
  (messages sent, traceback logging, sleeps) are modelled as explicit data
  returned by the embedded functions.
-/

namespace MCStatusBot

/-! ## Python string primitives used by bot.py -/

/-- Python `str.lower()` restricted to ASCII case folding, which is all the
source exercises (`self.config["server-type"].lower()`). -/
def pyLower (s : String) : String :=
  ⟨s.data.map Char.toLower⟩

/-- Whether `pat` occurs at the very start of `l` (over `List Char`). -/
def listStartsWith : List Char → List Char → Bool
  | [], _ => true
  | _ :: _, [] => false
  | p :: ps, a :: s => p = a && listStartsWith ps s

/-- Whether `pat` occurs anywhere inside `l` as a contiguous run. -/
def listContainsSub (pat : List Char) : List Char → Bool
  | [] => pat.isEmpty
  | a :: s => listStartsWith pat (a :: s) || listContainsSub pat s

/-- Substring test on `String`, via the underlying character lists. -/
def strContains (s pat : String) : Bool :=
  listContainsSub pat.data s.data

/-- Python `str.replace(pat, rep)` on character lists: scans left to right,
replacing each non-overlapping occurrence of a non-empty `pat` by `rep`
(the empty-pattern corner case of Python is not used by the source).  The
fuel argument only forces structural recursion: every step consumes at
least one character, so fuel equal to the list length is always enough. -/
def listReplaceF (pat rep : List Char) : Nat → List Char → List Char
  | _, [] => []
  | 0, l => l
  | fuel + 1, a :: s =>
      if pat.length ≠ 0 ∧ listStartsWith pat (a :: s) = true then
        rep ++ listReplaceF pat rep fuel (s.drop (pat.length - 1))
      else
        a :: listReplaceF pat rep fuel s

/-- Python `str.replace` lifted to `String`. -/
def pyReplace (s pat rep : String) : String :=
  ⟨listReplaceF pat.data rep.data s.data.length s.data⟩

/-- Python `str.capitalize()` (ASCII): first character uppercased, the rest
lowercased. -/
def pyCapitalize (s : String) : String :=
  match s.data with
  | [] => ""
  | a :: rest => ⟨a.toUpper :: rest.map Char.toLower⟩

/-- Python `int(q)` on a (rational-valued) number: truncation toward zero,
computed as truncated division of numerator by denominator. -/
def pyInt (q : ℚ) : ℤ :=
  q.num.tdiv q.den

/-! ## bot.py: configuration validation (ServerStatus.__init__, lines 72-76) -/

/-- The two configuration fields validated by `ServerStatus.__init__`. -/
structure Config where
  serverType : String
  refreshRate : Int
  deriving Repr, DecidableEq

/-- The configuration-validation exceptions of bot.py (lines 24-35). -/
inductive ConfigError where
  | invalidServerType (value : String)
  | invalidRefreshRate (value : Int)
  deriving Repr, DecidableEq

/-- The validation performed by `ServerStatus.__init__` (bot.py lines 72-76):
first `server-type`.lower() must be "java" or "bedrock" (else raise
`InvalidServerType` with the offending value), then `refresh-rate` must be
at least 30 (else raise `InvalidRefreshRate` with the offending value). -/
def validateConfig (c : Config) : Except ConfigError Unit :=
  if pyLower c.serverType ≠ "java" ∧ pyLower c.serverType ≠ "bedrock" then
    .error (.invalidServerType c.serverType)
  else if c.refreshRate < 30 then
    .error (.invalidRefreshRate c.refreshRate)
  else
    .ok ()

deriving instance DecidableEq for Except

/-! ## bot.py: the centralized command-error handler (lines 133-183) -/

/-- The error kinds distinguished by `on_command_error`'s isinstance chain.
`commandInvokeError` carries whether the wrapped `error.original` is a
`discord.HTTPException` (a platform-transport error) together with the
error's display text; `otherError` stands for any error type matched by no
branch of the chain. -/
inductive CmdError where
  | noPrivateMessage
  | argumentParsingError (text : String)
  | commandOnCooldown (retryAfter : ℚ)
  | botMissingPermissions (missingPermissions : List String)
  | badArgument (text : String)
  | missingRequiredArgument (paramName : String)
  | commandInvokeError (originalIsHTTPException : Bool) (text : String)
  | otherError (text : String)

/-- Observable effects of the error handler: a plain chat message, an embed
(title and description), or writing the full traceback to stderr. -/
inductive Action where
  | send (content : String)
  | sendEmbed (title description : String)
  | logTraceback
  deriving Repr, DecidableEq

/-- The `\N{CROSS MARK}` character bound to `red_tick` in bot.py line 148. -/
def red_tick : String := "❌"

/-- The per-permission humanization of bot.py line 165:
`str(perm).replace("_", " ").replace("guild", "server").capitalize()`. -/
def formatPerm (perm : String) : String :=
  pyCapitalize (pyReplace (pyReplace perm "_" " ") "guild" "server")

/-- The message built by the `BotMissingPermissions` branch
(bot.py lines 162-167): a header followed by one backticked bullet line per
missing permission, accumulated left to right. -/
def missing_perms_message (perms : List String) : String :=
  let permsStr := perms.foldl (fun acc p => acc ++ "\n- `" ++ formatPerm p ++ "`") ""
  red_tick ++ " I am missing some required permission(s):" ++ permsStr

/-- The message sent by the `CommandOnCooldown` branch (bot.py line 160),
with `int(error.retry_after)` seconds remaining. -/
def cooldown_message (retryAfter : ℚ) : String :=
  red_tick ++ " You are on cooldown. Try again in " ++ toString (pyInt retryAfter) ++ " seconds."

/-- `ServerStatus.send_unexpected_error` (bot.py lines 133-145): an embed
titled ":warning: Unexpected Error" whose description wraps the error text
in a Python code block. -/
def send_unexpected_error (errText : String) : Action :=
  .sendEmbed ":warning: Unexpected Error"
    ("An unexpected error has occured:```py\n" ++ errText ++ "```\n")

/-- `ServerStatus.on_command_error` (bot.py lines 147-183).  `ctxHandled`
models `hasattr(ctx, "handled")`; `ctxCommand` models `str(ctx.command)`.
Returns the list of observable effects, in order. -/
def on_command_error (ctxHandled : Bool) (ctxCommand : String) (error : CmdError) :
    List Action :=
  if ctxHandled then []
  else
    match error with
    | .noPrivateMessage =>
        [.send (red_tick ++ " This command can't be used in DMs.")]
    | .argumentParsingError t =>
        [.send (red_tick ++ " " ++ t)]
    | .commandOnCooldown r =>
        [.send (cooldown_message r)]
    | .botMissingPermissions ps =>
        [.send (missing_perms_message ps)]
    | .badArgument t =>
        [.send (red_tick ++ " " ++ t)]
    | .missingRequiredArgument n =>
        [.send (red_tick ++ " Missing a required argument: `" ++ n ++ "`")]
    | .commandInvokeError isHTTP t =>
        if ctxCommand = "help" then []
        else if isHTTP then []
        else [.logTraceback, send_unexpected_error t]
    | .otherError _ => []

/-! ## run.py: disk-space check (opt_check_disk_space, lines 150-152) -/

/-- The default `warnlimit_mb` argument of `opt_check_disk_space`. -/
def warnlimitDefault : Nat := 200

/-- `opt_check_disk_space` (run.py lines 150-152): warns when the free byte
count is below `warnlimit_mb * 1024 * 2`, with the warning text produced by
the f-string on line 152.  Returns the warning, if any. -/
def opt_check_disk_space (freeBytes : Nat) (warnlimit_mb : Nat) : Option String :=
  if freeBytes < warnlimit_mb * 1024 * 2 then
    some ("Less than " ++ toString warnlimit_mb ++ "MB of free space remains on this device")
  else
    none

/-! ## run.py: the supervisor loop (main, lines 155-224)

The `while tryagain:` loop of `main` is embedded as a fuel-indexed iteration
of a per-iteration step function.  One iteration is:

  try:      import bot / construct ServerStatus / bot_instance.run()
  except SyntaxError:   break
  except ImportError:   first time: pip install; on success `continue`,
                        on failure break; second time: break
  except Exception:     LoginFailure-like: break; otherwise fall through
  finally:  if bot_instance is None or not init_ok, and loops > 2: break;
            loops += 1   (the finally block runs on every exit path,
            including the `continue` and `break`s above, and its `break`
            overrides a pending `continue`)
  then:     if bot_instance is None or restart_signal is falsy: break
            sleep min(loops * 2, 60) and iterate again.
-/

/-- Exception classes distinguished by `main`'s except clauses.  `synErr`
is `SyntaxError`, `impErr` is `ImportError`, `loginFailure` is any
exception whose type name contains "LoginFailure", `generic` is every
other exception. -/
inductive Exc where
  | synErr
  | impErr
  | loginFailure
  | generic
  deriving Repr, DecidableEq

/-- What one attempt of the try-block body observably did:
whether `bot_instance` was assigned (construction succeeded), the values of
its `init_ok` and `restart_signal` attributes, and the exception raised by
the body, if any (`none` means `run()` returned normally). -/
structure RunOutcome where
  constructed : Bool
  initOk : Bool
  restartSignal : Bool
  exc : Option Exc
  deriving Repr, DecidableEq

/-- Supervisor loop state and observables: `tried` is
`tried_requirementstxt`, `loops` the loop counter, `attempts` the number of
try-block executions so far, `installs` the number of
`PIP.run_install("--upgrade -r requirements.txt")` invocations, and
`sleeps` the list of `time.sleep` durations performed, in order. -/
structure SupState where
  tried : Bool
  loops : Nat
  attempts : Nat
  installs : Nat
  sleeps : List Nat
  deriving Repr, DecidableEq

/-- Pending control transfer chosen by the try/except part of an iteration:
fall through to the restart-signal check, break out of the loop, or
continue with the next iteration. -/
inductive Pending where
  | fall
  | brk
  | cont
  deriving Repr, DecidableEq

/-- Result of one loop iteration: the loop halted, or proceeds with the
next iteration from the given state. -/
inductive StepRes where
  | halt (s : SupState)
  | next (s : SupState)
  deriving Repr, DecidableEq

/-- The except-clause dispatch of `main` (run.py lines 176-201), producing
the pending control transfer together with the updated
`tried_requirementstxt` flag and install count.  `installOk` tells whether
`PIP.run_install` returns a falsy (successful) exit status. -/
def exceptPhase (installOk tried : Bool) (installs : Nat) (exc : Option Exc) :
    Pending × Bool × Nat :=
  match exc with
  | none => (.fall, tried, installs)
  | some .synErr => (.brk, tried, installs)
  | some .impErr =>
      if tried then (.brk, tried, installs)
      else if installOk then (.cont, true, installs + 1)
      else (.brk, true, installs + 1)
  | some .loginFailure => (.brk, tried, installs)
  | some .generic => (.fall, tried, installs)

/-- One full iteration of `main`'s while loop (run.py lines 164-221):
try/except dispatch, then the finally block (the 3-strikes check and the
`loops` increment), then the restart-signal check and the backoff sleep of
`min(loops * 2, 60)` seconds. -/
def supervisorStep (installOk : Bool) (o : RunOutcome) (s : SupState) : StepRes :=
  let e := exceptPhase installOk s.tried s.installs o.exc
  let pending := e.1
  let tried1 := e.2.1
  let installs1 := e.2.2
  let pending1 :=
    if (o.constructed = false ∨ o.initOk = false) ∧ s.loops > 2 then Pending.brk
    else pending
  let loops1 := s.loops + 1
  let s1 : SupState := ⟨tried1, loops1, s.attempts + 1, installs1, s.sleeps⟩
  match pending1 with
  | .brk => .halt s1
  | .cont => .next s1
  | .fall =>
      if o.constructed = false ∨ o.restartSignal = false then .halt s1
      else
        let st := min (loops1 * 2) 60
        if st ≠ 0 then .next ⟨tried1, loops1, s.attempts + 1, installs1, s.sleeps ++ [st]⟩
        else .next s1

/-- Fuel-indexed iteration of the supervisor loop.  `behavior n` is the
outcome of the (n+1)-st try-block execution.  Returns `some s` when the
loop halts within the given fuel, with `s` the final state. -/
def supervisorRun (behavior : Nat → RunOutcome) (installOk : Bool) :
    Nat → SupState → Option SupState
  | 0, _ => none
  | fuel + 1, s =>
      match supervisorStep installOk (behavior s.attempts) s with
      | .halt s1 => some s1
      | .next s1 => supervisorRun behavior installOk fuel s1

/-- `main`'s loop from its initial state (`tried_requirementstxt = False`,
`loops = 0`). -/
def supervisorMain (behavior : Nat → RunOutcome) (installOk : Bool) (fuel : Nat) :
    Option SupState :=
  supervisorRun behavior installOk fuel ⟨false, 0, 0, 0, []⟩

/-- A run attempt in which `ServerStatus()` is constructed but `run()`
raises a generic (non-import, non-login, non-syntax) exception before the
bot ever becomes ready; nothing sets `restart_signal`. -/
def genericCrashOutcome : RunOutcome := ⟨true, false, false, some .generic⟩

/-- A run attempt in which the import of the bot module raises
`ImportError` (so `bot_instance` is never assigned). -/
def impErrOutcome : RunOutcome := ⟨false, false, false, some .impErr⟩

/-- A run attempt in which the bot starts, reaches `on_ready`
(`init_ok = True`), and later returns from `run()` normally without
requesting a restart. -/
def successOutcome : RunOutcome := ⟨true, true, false, none⟩

/-- The behavior of claim C5's first scenario: `ImportError` on the first
attempt, clean successful run on every later attempt. -/
def c5Behavior : Nat → RunOutcome :=
  fun n => if n = 0 then impErrOutcome else successOutcome

/-! ## cogs/help.py: the customized help renderer -/

/-- The data of a registered command observable by the help renderer.  For
the top-level commands considered here, `qualified_name` coincides with
`name`, so a single field serves both the sort key and the display name. -/
structure Command where
  name : String
  hidden : Bool
  shortDoc : String
  passesChecks : Bool
  deriving Repr, DecidableEq

/-- Code-point-wise lexicographic comparison of character lists, the order
Python's `sorted` uses on strings. -/
def charListLe : List Char → List Char → Bool
  | [], _ => true
  | _ :: _, [] => false
  | a :: s, b :: t =>
      if a.toNat < b.toNat then true
      else if b.toNat < a.toNat then false
      else charListLe s t

/-- Python's string order (code-point lexicographic), lifted to `String`. -/
def pyStrLe (s t : String) : Bool :=
  charListLe s.data t.data

/-- Stable insertion of a command into a name-sorted list (placed before
any command of an equal or larger name). -/
def insertByName (c : Command) : List Command → List Command
  | [] => [c]
  | d :: ds => if pyStrLe c.name d.name then c :: d :: ds else d :: insertByName c ds

/-- Stable sort by command name (the `key=lambda c: c.name` sort). -/
def sortByName : List Command → List Command
  | [] => []
  | c :: cs => insertByName c (sortByName cs)

/-- Modelled from the discord.py framework (an external dependency, not
part of this repository): `HelpCommand.filter_commands(commands, sort=...)`
drops hidden commands unless `show_hidden` is set, drops commands whose
checks fail, and, when `sort` is true, returns the result sorted by
command name. -/
def filter_commands (showHidden sort : Bool) (cmds : List Command) : List Command :=
  let iterated := if showHidden then cmds else cmds.filter (fun c => !c.hidden)
  let ret := iterated.filter (fun c => c.passesChecks)
  if sort then sortByName ret else ret

/-- `HelpCommand.get_opening_note` (cogs/help.py lines 12-17).  `cpfx`
models `self.context.clean_prefix`; an empty `invokedWith` models a falsy
`self.invoked_with`. -/
def get_opening_note (cpfx invokedWith : String) : String :=
  let commandName := if invokedWith = "" then "help" else invokedWith
  "Use `" ++ cpfx ++ commandName ++ " [command]` for more info on a command."

/-- `HelpCommand.add_subcommand_formatting` (cogs/help.py lines 23-33):
the single paginator line added for one command, with or without its short
description (the separator is `\N{EN DASH}`). -/
def add_subcommand_formatting (cpfx : String) (c : Command) : String :=
  if c.shortDoc ≠ "" then
    "`" ++ cpfx ++ c.name ++ "` – " ++ c.shortDoc
  else
    "`" ++ cpfx ++ c.name ++ "`"

/-- `HelpCommand.send_bot_help` (cogs/help.py lines 54-81), returning the
paginator lines in order (`add_line(x, empty=True)` contributes `x`
followed by an empty line).  `mapping` is the cog-to-commands mapping's
list of command lists; the body flattens it into `all_commands`, calls
`filter_commands(all_commands, sort=True)`, and then re-sorts by name only
when `self.sort_commands` is set (cogs/help.py line 73).  `endingNote`
models `self.get_ending_note()`, empty when falsy. -/
def send_bot_help (sort_commands showHidden : Bool)
    (cpfx invokedWith botDescription endingNote : String)
    (mapping : List (List Command)) : List String :=
  let p1 := if botDescription ≠ "" then [botDescription, ""] else []
  let note := get_opening_note cpfx invokedWith
  let p2 := if note ≠ "" then [note, ""] else []
  let p3 := ["**Commands**"]
  let all_commands := mapping.foldl (fun acc cmds => acc ++ cmds) []
  let filtered := filter_commands showHidden true all_commands
  let cmds := if sort_commands then sortByName filtered else filtered
  let p4 := cmds.map (add_subcommand_formatting cpfx)
  let p5 := if endingNote ≠ "" then ["", endingNote] else []
  p1 ++ p2 ++ p3 ++ p4 ++ p5

/-! ## Helper lemmas -/

/-- Python truncation agrees with the floor on nonnegative rationals. -/
theorem pyInt_eq_floor {q : ℚ} (hq : 0 ≤ q) : pyInt q = ⌊q⌋ := by
  rw [pyInt, Rat.floor_def]
  exact Int.tdiv_eq_ediv (Rat.num_nonneg.2 hq) (Int.natCast_nonneg _)

theorem listStartsWith_append (pat rest : List Char) :
    listStartsWith pat (pat ++ rest) = true := by
  induction pat with
  | nil => rfl
  | cons p ps ih => simp [listStartsWith, ih]

theorem listStartsWith_append_right {pat s : List Char} (t : List Char)
    (h : listStartsWith pat s = true) : listStartsWith pat (s ++ t) = true := by
  induction pat generalizing s with
  | nil => rfl
  | cons p ps ih =>
      cases s with
      | nil => simp [listStartsWith] at h
      | cons a s2 =>
          simp only [List.cons_append]
          simp only [listStartsWith, Bool.and_eq_true] at h ⊢
          exact ⟨h.1, ih h.2⟩

theorem listContainsSub_of_startsWith {pat l : List Char}
    (h : listStartsWith pat l = true) : listContainsSub pat l = true := by
  cases l with
  | nil =>
      cases pat with
      | nil => rfl
      | cons p ps => simp [listStartsWith] at h
  | cons a s => simp [listContainsSub, h]

theorem listContainsSub_append_left {pat s : List Char} (x : List Char)
    (h : listContainsSub pat s = true) : listContainsSub pat (x ++ s) = true := by
  induction x with
  | nil => simpa using h
  | cons a xs ih => simp [listContainsSub, ih]

theorem listContainsSub_append_right {pat s : List Char} (t : List Char)
    (h : listContainsSub pat s = true) : listContainsSub pat (s ++ t) = true := by
  induction s with
  | nil =>
      have hp : pat = [] := by simpa [listContainsSub] using h
      subst hp
      cases t with
      | nil => rfl
      | cons a t2 => simp [listContainsSub, listStartsWith]
  | cons a s2 ih =>
      simp only [List.cons_append]
      simp only [listContainsSub, Bool.or_eq_true] at h ⊢
      rcases h with h | h
      · exact Or.inl (by
          simpa [List.cons_append] using listStartsWith_append_right (s := a :: s2) t h)
      · exact Or.inr (ih h)

/-- A string contains its own final three-piece segment. -/
theorem strContains_reassoc (acc u v w : String) :
    strContains (acc ++ u ++ v ++ w) (u ++ v ++ w) = true := by
  simp only [strContains, String.data_append, List.append_assoc]
  exact listContainsSub_append_left _ (listContainsSub_of_startsWith (by
    simpa using listStartsWith_append (u.data ++ (v.data ++ w.data)) []))

/-- Containment survives appending three more pieces on the right. -/
theorem strContains_extend (s u v w pat : String) (h : strContains s pat = true) :
    strContains (s ++ u ++ v ++ w) pat = true := by
  simp only [strContains, String.data_append, List.append_assoc] at h ⊢
  exact listContainsSub_append_right _ h

/-- Containment survives prepending two pieces on the left. -/
theorem strContains_prepend2 (a b s pat : String) (h : strContains s pat = true) :
    strContains (a ++ b ++ s) pat = true := by
  simp only [strContains, String.data_append, List.append_assoc] at h ⊢
  exact listContainsSub_append_left _ (listContainsSub_append_left _ h)

/-- Folding further bullet lines onto an accumulator keeps any substring it
already contains. -/
theorem foldl_bullets_preserves (rest : List String) (pat : String) :
    ∀ acc : String, strContains acc pat = true →
      strContains
        (rest.foldl (fun acc2 q => acc2 ++ "\n- `" ++ formatPerm q ++ "`") acc) pat = true := by
  induction rest with
  | nil => intro acc h; simpa using h
  | cons q rest2 ih =>
      intro acc h
      simp only [List.foldl_cons]
      exact ih _ (strContains_extend _ _ _ _ _ h)

/-- The bullet-line fold of the `BotMissingPermissions` branch contains the
bullet line of every listed permission. -/
theorem mem_foldl_bullets_contains (perms : List String) (p : String) (hp : p ∈ perms) :
    ∀ acc : String,
      strContains
        (perms.foldl (fun acc2 q => acc2 ++ "\n- `" ++ formatPerm q ++ "`") acc)
        ("\n- `" ++ formatPerm p ++ "`") = true := by
  induction perms with
  | nil => cases hp
  | cons q rest ih =>
      intro acc
      simp only [List.foldl_cons]
      rcases List.mem_cons.1 hp with rfl | hmem
      · exact foldl_bullets_preserves rest _ _ (strContains_reassoc acc _ _ _)
      · exact ih hmem _

/-! ## Claim theorems -/

/-- C3 (counterexample): a configuration whose refresh-rate is below 30 but
whose server-type is also invalid fails with `InvalidServerType`, not with
`InvalidRefreshRate`, because the server-type check runs first: so "for
every configuration whose refresh-rate value is < 30, construction fails
with InvalidRefreshRate" is false as stated. -/
theorem c3_counterexample :
    validateConfig ⟨"foo", 10⟩ = .error (.invalidServerType "foo") ∧
    validateConfig ⟨"foo", 10⟩ ≠ .error (.invalidRefreshRate 10) := by
  constructor <;> decide

/-- C3 (amended): for every configuration whose server-type passes its
(case-insensitive) check, a refresh-rate below 30 makes construction fail
with `InvalidRefreshRate` carrying that value, and a refresh-rate of at
least 30 passes validation. -/
theorem c3_refresh_rate_validation (c : Config)
    (hty : pyLower c.serverType = "java" ∨ pyLower c.serverType = "bedrock") :
    (c.refreshRate < 30 → validateConfig c = .error (.invalidRefreshRate c.refreshRate)) ∧
    (30 ≤ c.refreshRate → validateConfig c = .ok ()) := by
  have hcond : ¬(pyLower c.serverType ≠ "java" ∧ pyLower c.serverType ≠ "bedrock") := by
    rcases hty with h | h <;> simp [h]
  constructor
  · intro h30
    unfold validateConfig
    rw [if_neg hcond, if_pos h30]
  · intro h30
    unfold validateConfig
    rw [if_neg hcond, if_neg (by omega)]

/-- C3 witness. -/
theorem c3_refresh_rate_validation_witness :
    validateConfig ⟨"java", 10⟩ = .error (.invalidRefreshRate 10) ∧
    validateConfig ⟨"BEDROCK", 30⟩ = .ok () :=
  ⟨(c3_refresh_rate_validation ⟨"java", 10⟩ (Or.inl (by decide))).1 (by decide),
   (c3_refresh_rate_validation ⟨"BEDROCK", 30⟩ (Or.inr (by decide))).2 (by decide)⟩

/-- C4 (counterexample): `"JAVA"` differs from `"java"` only in letter
case, yet with a refresh-rate of 10 configuration validation does not pass:
it fails with `InvalidRefreshRate`.  So "for every server-type string that
differs only in letter case from java or bedrock, configuration validation
passes" is false as stated. -/
theorem c4_counterexample :
    validateConfig ⟨"JAVA", 10⟩ ≠ .ok () ∧
    validateConfig ⟨"JAVA", 10⟩ = .error (.invalidRefreshRate 10) := by
  constructor <;> decide

/-- C4 (amended): for every server-type string that differs only in letter
case from "java" or "bedrock" (i.e. lowercases to one of them), the
server-type validation passes — validation then fails only with
`InvalidRefreshRate` when the refresh-rate is below 30 and succeeds
otherwise; for any other string, validation fails with `InvalidServerType`
carrying the offending value, regardless of the refresh-rate. -/
theorem c4_server_type_validation (s : String) (rr : Int) :
    ((pyLower s = "java" ∨ pyLower s = "bedrock") →
      validateConfig ⟨s, rr⟩ =
        if rr < 30 then .error (.invalidRefreshRate rr) else .ok ()) ∧
    (¬(pyLower s = "java" ∨ pyLower s = "bedrock") →
      validateConfig ⟨s, rr⟩ = .error (.invalidServerType s)) := by
  constructor
  · intro hty
    have hcond : ¬(pyLower s ≠ "java" ∧ pyLower s ≠ "bedrock") := by
      rcases hty with h | h <;> simp [h]
    simp only [validateConfig]
    rw [if_neg hcond]
  · intro hty
    push_neg at hty
    simp only [validateConfig]
    rw [if_pos hty]

/-- C4 witness. -/
theorem c4_server_type_validation_witness :
    validateConfig ⟨"JaVa", 50⟩ = .ok () ∧
    validateConfig ⟨"x", 50⟩ = .error (.invalidServerType "x") := by
  constructor
  · have h := (c4_server_type_validation "JaVa" 50).1 (Or.inl (by decide))
    rw [if_neg (by decide : ¬((50 : Int) < 30))] at h
    exact h
  · exact (c4_server_type_validation "x" 50).2 (by decide)

/-- C6: each missing permission is rendered as a backticked bullet line of
its humanized name (underscores to spaces, "guild" to "server",
capitalized) somewhere in the emitted message; in particular, for
`["manage_guild", "send_messages"]` the sent message is exactly the header
followed by the bullet lines "Manage server" and "Send messages", and it
contains both bullet lines. -/
theorem c6_missing_perms_formatting :
    (∀ (perms : List String) (p : String), p ∈ perms →
      strContains (missing_perms_message perms) ("\n- `" ++ formatPerm p ++ "`") = true) ∧
    on_command_error false "status" (.botMissingPermissions ["manage_guild", "send_messages"])
      = [.send ("❌ I am missing some required permission(s):\n- `Manage server`\n- `Send messages`")] ∧
    strContains (missing_perms_message ["manage_guild", "send_messages"]) "- `Manage server`" = true ∧
    strContains (missing_perms_message ["manage_guild", "send_messages"]) "- `Send messages`" = true := by
  refine ⟨?_, by decide, by decide, by decide⟩
  intro perms p hp
  simp only [missing_perms_message]
  exact strContains_prepend2 _ _ _ _ (mem_foldl_bullets_contains perms p hp "")

/-- C6 witness. -/
theorem c6_missing_perms_formatting_witness :
    strContains (missing_perms_message ["manage_guild", "send_messages"])
      ("\n- `" ++ formatPerm "manage_guild" ++ "`") = true :=
  c6_missing_perms_formatting.1 ["manage_guild", "send_messages"] "manage_guild"
    (by simp)

/-- C7: for every `CommandOnCooldown` error with positive retry_after, the
emitted message reports the floor of the remaining seconds; at
retry_after = 7.9 the message contains "7 seconds" (floor, not round). -/
theorem c7_cooldown_floor :
    (∀ (q : ℚ) (cmd : String), 0 < q →
      on_command_error false cmd (.commandOnCooldown q)
        = [.send (red_tick ++ " You are on cooldown. Try again in "
            ++ toString ⌊q⌋ ++ " seconds.")]) ∧
    strContains (cooldown_message (79/10 : ℚ)) "7 seconds" = true ∧
    cooldown_message (79/10 : ℚ) = "❌ You are on cooldown. Try again in 7 seconds." := by
  have hmk : (79/10 : ℚ) = mkRat 79 10 := by norm_num [Rat.mkRat_eq_div]
  refine ⟨fun q cmd hq => ?_, by rw [hmk]; decide, by rw [hmk]; decide⟩
  simp only [on_command_error, cooldown_message, pyInt_eq_floor (le_of_lt hq)]
  rfl

/-- C7 witness. -/
theorem c7_cooldown_floor_witness :
    on_command_error false "x" (.commandOnCooldown (79/10 : ℚ))
      = [.send (red_tick ++ " You are on cooldown. Try again in "
          ++ toString ⌊(79/10 : ℚ)⌋ ++ " seconds.")] :=
  c7_cooldown_floor.1 (79/10) "x" (by norm_num)

/-- C8: past the earlier branches (the context not flagged as handled, the
command not "help"), the handler logs the trace and sends the generic
unexpected-error embed exactly when the error is an invocation-wrapped
error whose inner cause is not an HTTP (platform-transport) error; an
invocation error wrapping a transport error is suppressed with no output,
as is any error kind matched by no branch. -/
theorem c8_fallback_invoke_only (cmd t : String) (hcmd : cmd ≠ "help") :
    on_command_error false cmd (.commandInvokeError true t) = [] ∧
    on_command_error false cmd (.commandInvokeError false t)
      = [.logTraceback, send_unexpected_error t] ∧
    on_command_error false cmd (.otherError t) = [] := by
  unfold on_command_error
  simp [hcmd]

/-- C8 witness. -/
theorem c8_fallback_invoke_only_witness :
    on_command_error false "status" (.commandInvokeError true "boom") = [] ∧
    on_command_error false "status" (.commandInvokeError false "boom")
      = [.logTraceback, send_unexpected_error "boom"] ∧
    on_command_error false "status" (.otherError "boom") = [] :=
  c8_fallback_invoke_only "status" "boom" (by decide)

/-- C9: whenever the invocation context carries the handled marker, the
error handler returns immediately: no message is sent and nothing is
logged, for every error kind. -/
theorem c9_handled_context_suppresses_all (cmd : String) (e : CmdError) :
    on_command_error true cmd e = [] := rfl

/-- C10: with the default warn limit of 200, the disk-space check warns
exactly when free space is below 200 × 1024 × 2 = 409600 bytes, and the
warning text nevertheless reads "200MB"; at and above 409600 bytes there
is no warning. -/
theorem c10_disk_space_threshold :
    (∀ freeBytes : Nat,
      opt_check_disk_space freeBytes warnlimitDefault
        = if freeBytes < 409600 then
            some "Less than 200MB of free space remains on this device"
          else none) ∧
    opt_check_disk_space 409599 warnlimitDefault ≠ none ∧
    opt_check_disk_space 409600 warnlimitDefault = none := by
  refine ⟨fun freeBytes => ?_, by decide, by decide⟩
  have hn : warnlimitDefault * 1024 * 2 = 409600 := by decide
  have hs : ("Less than " ++ toString warnlimitDefault
      ++ "MB of free space remains on this device")
      = "Less than 200MB of free space remains on this device" := by decide
  unfold opt_check_disk_space
  rw [hn, hs]

/-- C2 (code evaluation at the failing input): three visible, check-passing
commands registered in declaration order b, a, c are rendered by
`send_bot_help` in alphabetical order a, b, c even with
`sort_commands = False`, because `filter_commands` is invoked with
`sort=True` before the `sort_commands` conditional; with sorting enabled
the order is likewise a, b, c. -/
theorem c2_help_render_order :
    send_bot_help false false "!" "help" "" ""
        [[⟨"b", false, "", true⟩, ⟨"a", false, "", true⟩, ⟨"c", false, "", true⟩]]
      = ["Use `!help [command]` for more info on a command.", "",
         "**Commands**", "`!a`", "`!b`", "`!c`"] ∧
    send_bot_help true false "!" "help" "" ""
        [[⟨"b", false, "", true⟩, ⟨"a", false, "", true⟩, ⟨"c", false, "", true⟩]]
      = ["Use `!help [command]` for more info on a command.", "",
         "**Commands**", "`!a`", "`!b`", "`!c`"] := by
  constructor <;> decide

/-- C1 (counterexample): with a run function that always raises a generic
exception and never sets the initialization flag (nor the restart signal,
which no code path ever sets), the supervisor loop halts after exactly 1
attempt, not 3: the restart-signal check `if not bot_instance or not
getattr(bot_instance, "restart_signal", False): break` fires on the very
first iteration. -/
theorem c1_counterexample :
    supervisorMain (fun _ => genericCrashOutcome) true 10 = some ⟨false, 1, 1, 0, []⟩ ∧
    (supervisorMain (fun _ => genericCrashOutcome) true 10).map SupState.attempts ≠ some 3 := by
  constructor <;> decide

/-- C1 (amended): for every run function that always raises a generic
(non-import, non-login, non-syntax) exception, never sets the
initialization flag, and never sets the restart signal (the code never
does), the supervisor main loop stops after exactly 1 attempt, with no
dependency install and no sleep at all. -/
theorem c1_generic_crash_stops_after_one (behavior : Nat → RunOutcome)
    (hexc : ∀ n, (behavior n).exc = some Exc.generic)
    (hinit : ∀ n, (behavior n).initOk = false)
    (hrs : ∀ n, (behavior n).restartSignal = false)
    (fuel : Nat) (hf : 1 ≤ fuel) :
    supervisorMain behavior true fuel = some ⟨false, 1, 1, 0, []⟩ := by
  obtain ⟨k, rfl⟩ : ∃ k, fuel = k + 1 := ⟨fuel - 1, by omega⟩
  show supervisorRun behavior true (k + 1) ⟨false, 0, 0, 0, []⟩ = _
  simp [supervisorRun, supervisorStep, exceptPhase, hexc, hinit, hrs]

/-- C1 witness. -/
theorem c1_generic_crash_stops_after_one_witness :
    supervisorMain (fun _ => genericCrashOutcome) true 5 = some ⟨false, 1, 1, 0, []⟩ :=
  c1_generic_crash_stops_after_one (fun _ => genericCrashOutcome)
    (fun _ => rfl) (fun _ => rfl) (fun _ => rfl) 5 (by omega)

/-- C5: for a run function that raises `ImportError` on the first attempt
and then runs successfully, the supervisor performs the dependency
auto-install exactly once and halts after the successful second attempt
(2 attempts, 1 install, no sleeps); and if `ImportError` recurs after the
install pass, the supervisor stops as fatal after the second attempt, still
with exactly one install. -/
theorem c5_auto_install_once :
    (∀ behavior : Nat → RunOutcome, behavior 0 = impErrOutcome → behavior 1 = successOutcome →
      ∀ fuel : Nat, 2 ≤ fuel →
        supervisorMain behavior true fuel = some ⟨true, 2, 2, 1, []⟩) ∧
    (∀ behavior : Nat → RunOutcome, (∀ n, behavior n = impErrOutcome) →
      ∀ fuel : Nat, 2 ≤ fuel →
        supervisorMain behavior true fuel = some ⟨true, 2, 2, 1, []⟩) := by
  constructor
  · intro behavior h0 h1 fuel hf
    obtain ⟨k, rfl⟩ : ∃ k, fuel = k + 2 := ⟨fuel - 2, by omega⟩
    show supervisorRun behavior true (k + 1 + 1) ⟨false, 0, 0, 0, []⟩ = _
    simp [supervisorRun, supervisorStep, exceptPhase, h0, h1, impErrOutcome, successOutcome]
  · intro behavior h fuel hf
    obtain ⟨k, rfl⟩ : ∃ k, fuel = k + 2 := ⟨fuel - 2, by omega⟩
    show supervisorRun behavior true (k + 1 + 1) ⟨false, 0, 0, 0, []⟩ = _
    simp [supervisorRun, supervisorStep, exceptPhase, h, impErrOutcome]

/-- C5 witness. -/
theorem c5_auto_install_once_witness :
    supervisorMain c5Behavior true 5 = some ⟨true, 2, 2, 1, []⟩ ∧
    supervisorMain (fun _ => impErrOutcome) true 5 = some ⟨true, 2, 2, 1, []⟩ :=
  ⟨c5_auto_install_once.1 c5Behavior rfl rfl 5 (by omega),
   c5_auto_install_once.2 (fun _ => impErrOutcome) (fun _ => rfl) 5 (by omega)⟩

end MCStatusBot
